import Mathlib

/-!
Verification of `@youwol/vsf-flux-view` (file `src/lib/common.ts`) against its
natural-language specification.

The package is glue code: configuration schemas with default closures, an
input declaration, a trivial state holder, and a module factory assembling a
host-runtime module instance.  The embedding below translates those
declarations into Lean.

JS objects are modelled as association lists of string keys; property read
returns the last binding for the key (later writes win, matching JS object
literal / spread semantics), and `none` models JS `undefined` (missing
property).  Functions stay first-class Lean values, with the types the source
uses kept generic where the source is generic.
-/

namespace VsfFluxView

/-- A JS object: an ordered list of string-keyed fields.  A key may occur
several times (as produced by spread followed by an explicit key); reads see
the last occurrence, matching JS semantics. -/
structure Obj (α : Type) where
  fields : List (String × α)

/-- JS property read: the value of the last binding of `k`, or `none`
(JS `undefined`) when the object has no such key. -/
def Obj.get {α : Type} (o : Obj α) (k : String) : Option α :=
  (o.fields.reverse.find? (fun p => p.1 = k)).map (fun p => p.2)

/-- Reading a key from `xs` extended by one trailing binding `(k0, v0)`:
the trailing binding wins for `k0`, every other key reads as in `xs`. -/
theorem Obj.get_append_single {α : Type} (xs : List (String × α)) (k0 k : String) (v0 : α) :
    Obj.get ⟨xs ++ [(k0, v0)]⟩ k =
      if k = k0 then some v0 else Obj.get ⟨xs⟩ k := by
  unfold Obj.get
  rw [List.reverse_append]
  by_cases h : k = k0
  · subst h
    simp [List.find?]
  · have hne : ¬ (k0 = k) := fun hc => h hc.symm
    simp [List.find?, hne, h]

/- ----------------------------------------------------------------------
External collaborators reachable from a module instance
(`module.environment['viewsFactory']` in the source).
---------------------------------------------------------------------- -/

/-- A view-factory of the host runtime's registry: a compatibility predicate
over message data and a view producer (`isCompatible` / `view` in the
source). -/
structure ViewFactory (D Vd : Type) where
  isCompatible : D → Bool
  view : D → Vd

/-- The part of a module's environment the source reads:
`environment['viewsFactory']`, an ordered list of view-factories. -/
structure Environment (D Vd : Type) where
  viewsFactory : List (ViewFactory D Vd)

/-- The part of `Modules.ImplementationTrait` the default `vdomMap` reads:
the module instance's environment. -/
structure ModuleInstance (D Vd : Type) where
  environment : Environment D Vd

/- ----------------------------------------------------------------------
`schemaCommonBase` and `configurationCommon` (src/lib/common.ts)
---------------------------------------------------------------------- -/

/-- Override policy of an attribute descriptor: plain attributes are
overridable, the source marks some with the literal option
value `final` for the override field. -/
inductive OverridePolicy where
  | overridable
  | final
deriving DecidableEq

/-- An attribute descriptor of the host runtime (`Modules.jsCodeAttribute` /
`Modules.anyObjectAttribute`): a default value plus an override policy. -/
structure Attribute (α : Type) where
  value : α
  policy : OverridePolicy

/-- The default `vdomMap` of `schemaCommonBase`: find the first view-factory
of the module's environment whose `isCompatible` accepts the data and return
its `view` applied to the data.  In the source, when no factory matches,
`find` returns `undefined` and the subsequent `factory.view(data)` throws a
`TypeError` which nothing in this package catches; the uncaught failure is
modelled as the result `none`. -/
def defaultVdomMap {D Vd : Type} (data : D) (module : ModuleInstance D Vd) : Option Vd :=
  match module.environment.viewsFactory.find? (fun factory => factory.isCompatible data) with
  | some factory => some (factory.view data)
  | none => none

/-- The default `outputs` of `schemaCommonBase`: `(state) => ({})`. -/
def defaultOutputs {St O : Type} (_state : St) : Obj O := ⟨[]⟩

/-- The default `orderOperator` of `configurationCommon.schema.options`:
`(data1, data2) => 0`. -/
def defaultOrderOperator {Dt : Type} (_data1 _data2 : Dt) : Int := 0

/-- `schemaCommonBase`: the three base attributes with their defaults and
override policies (`outputs` and `state` carry override final). -/
structure SchemaCommonBase (D Vd St O StD : Type) where
  vdomMap : Attribute (D → ModuleInstance D Vd → Option Vd)
  outputs : Attribute (St → Obj O)
  state : Attribute (Obj StD)

/-- The `options` block of `configurationCommon.schema`. -/
structure ConfigurationCommonOptions (Dt : Type) where
  orderOperator : Attribute (Dt → Dt → Int)

/-- `configurationCommon.schema`: the spread of `schemaCommonBase` (kept as
the `base` field) extended with `containerAttributes` and `options`. -/
structure ConfigurationCommonSchema (D Vd St O StD Dt : Type) where
  base : SchemaCommonBase D Vd St O StD
  containerAttributes : Attribute (Obj String)
  options : ConfigurationCommonOptions Dt

/-- The value of `schemaCommonBase` in the source. -/
def schemaCommonBase {D Vd St O StD : Type} : SchemaCommonBase D Vd St O StD :=
  ⟨⟨defaultVdomMap, OverridePolicy.overridable⟩,
   ⟨defaultOutputs, OverridePolicy.final⟩,
   ⟨⟨[]⟩, OverridePolicy.final⟩⟩

/-- The value of `configurationCommon` in the source (its single field
`schema`). -/
def configurationCommon {D Vd St O StD Dt : Type} : ConfigurationCommonSchema D Vd St O StD Dt :=
  ⟨schemaCommonBase,
   ⟨⟨[("class", "d-flex flex-column")]⟩, OverridePolicy.overridable⟩,
   ⟨⟨defaultOrderOperator, OverridePolicy.overridable⟩⟩⟩

/- ----------------------------------------------------------------------
`inputsCommon` (src/lib/common.ts)
---------------------------------------------------------------------- -/

/-- The host runtime's input contracts used by this package.  The source
only references `Contracts.ofUnknown`. -/
inductive Contract where
  | ofUnknown
deriving DecidableEq

/-- Modelled from the spec: the host runtime's `Contracts.ofUnknown` is the
accept-anything contract — it performs no shape validation, so it accepts
every message data.  (The contract implementation lives in the external
`@youwol/vsf-core` package, outside this repository's sources.) -/
def Contract.accepts {D : Type} : Contract → D → Bool :=
  fun _ _ => true

/-- One input-channel declaration: a description and a contract. -/
structure InputDecl where
  description : String
  contract : Contract

/-- `inputsCommon`: the object declaring the package's input channels. -/
def inputsCommon : Obj InputDecl :=
  ⟨[("input$", ⟨"the input stream", Contract.ofUnknown⟩)]⟩

/- ----------------------------------------------------------------------
`StateCommon` (src/lib/common.ts)
---------------------------------------------------------------------- -/

/-- The `StateCommon` class: a plain object holding the fields assigned at
construction. -/
structure StateCommon (α : Type) where
  fields : List (String × α)

/-- The `StateCommon` constructor: `Object.assign(this, params)` on a fresh
instance — every own field of `params` is copied (by reference) onto the
instance. -/
def StateCommon.ofParams {α : Type} (params : Obj α) : StateCommon α :=
  ⟨params.fields⟩

/-- Property read on a `StateCommon` instance. -/
def StateCommon.get {α : Type} (s : StateCommon α) (k : String) : Option α :=
  Obj.get ⟨s.fields⟩ k

/- ----------------------------------------------------------------------
`moduleCommon` (src/lib/common.ts)
---------------------------------------------------------------------- -/

/-- The nested `options` part of a resolved configuration instance. -/
structure OptionsInstance (G : Type) where
  orderOperator : G

/-- A resolved configuration instance, as produced by the host runtime from
`configurationCommon.schema` (post default-and-override resolution): one
value per schema option name.  `F` is the type of the resolved vdom-mapping
function, kept abstract. -/
structure ConfigurationInstance (F St O A G : Type) where
  vdomMap : F
  outputs : St → Obj O
  state : St
  containerAttributes : Obj A
  options : OptionsInstance G

/-- JS property access on a resolved configuration instance, specialised to
results of the vdom-mapping-function type `F`.  The instance's own property
keys are exactly the schema's option names (`vdomMap`, `outputs`, `state`,
`containerAttributes`, `options`); only `vdomMap` holds a value of type `F`,
and access under any other key — in particular the key `vDomMap` (capital D),
which the instance does not have — yields JS `undefined`, modelled as
`none`. -/
def ConfigurationInstance.getVdomFn {F St O A G : Type}
    (ci : ConfigurationInstance F St O A G) (key : String) : Option F :=
  if key = "vdomMap" then some ci.vdomMap else none

/-- The argument record handed to a module's output mapper
(`Modules.OutputMapperArg`): among its fields, the module's inputs and
state. -/
structure OutputMapperArg (I St : Type) where
  inputs : I
  state : St

/-- The record handed to `new Modules.Implementation(..., fwdParams)`.  The
host constructor is external; the resulting module instance carries the
supplied configuration, inputs declaration, output mapper, state, html
(view-producing) function, and the forwarded parameters verbatim. -/
structure Implementation (D Vd SSt O StD Dt I St O2 M A P : Type) where
  configuration : ConfigurationCommonSchema D Vd SSt O StD Dt
  inputs : Obj InputDecl
  outputs : OutputMapperArg I St → Obj O2
  state : St
  html : M → Obj A
  fwdParams : P

/-- `moduleCommon(fwdParams, configInstance, childrenStream)`:

```js
return new Modules.Implementation({
    configuration: configurationCommon,
    inputs: inputsCommon,
    outputs: (args) => configInstance.outputs(args.state),
    state: configInstance.state,
    html: (m) => ({
        ...configInstance.containerAttributes,
        children: childrenStream(m, configInstance.vDomMap),
    }),
}, fwdParams)
```

The property access `configInstance.vDomMap` is rendered by
`getVdomFn "vDomMap"` (see `ConfigurationInstance.getVdomFn`); the object
literal spreading `containerAttributes` and then assigning `children` is the
field list of `containerAttributes` extended by a trailing `children`
binding. -/
def moduleCommon {D Vd SSt O StD Dt I F St O2 A G M P : Type}
    (fwdParams : P) (configInstance : ConfigurationInstance F St O2 A G)
    (childrenStream : M → Option F → A) :
    Implementation D Vd SSt O StD Dt I St O2 M A P :=
  ⟨configurationCommon,
   inputsCommon,
   fun args => configInstance.outputs args.state,
   configInstance.state,
   fun m =>
     ⟨configInstance.containerAttributes.fields ++
       [("children", childrenStream m (configInstance.getVdomFn "vDomMap"))]⟩,
   fwdParams⟩

/- ----------------------------------------------------------------------
Helper lemmas
---------------------------------------------------------------------- -/

/-- `List.find?` returns the first element satisfying the predicate: on a
list split as `pre ++ a :: post` where nothing in `pre` satisfies `p` and
`a` does, it returns `a`. -/
theorem find?_eq_first_match {α : Type} (p : α → Bool) (pre : List α) (a : α) (post : List α)
    (hpre : ∀ g ∈ pre, p g = false) (ha : p a = true) :
    (pre ++ a :: post).find? p = some a := by
  induction pre with
  | nil => simp [List.find?, ha]
  | cons b bs ih =>
    have hb : p b = false := hpre b (by simp)
    simpa [List.find?, hb] using ih (fun g hg => hpre g (by simp [hg]))

/- ----------------------------------------------------------------------
Claim theorems
---------------------------------------------------------------------- -/

/-- C5: for every configuration instance, the output-derivation function of
the module built by `moduleCommon`, applied to an argument record `args`,
returns exactly `configInstance.outputs` applied to `args.state`. -/
theorem moduleCommon_outputs_applies_config_outputs
    {D Vd SSt O StD Dt I F St O2 A G M P : Type}
    (fwdParams : P) (configInstance : ConfigurationInstance F St O2 A G)
    (childrenStream : M → Option F → A) (args : OutputMapperArg I St) :
    (@moduleCommon D Vd SSt O StD Dt I F St O2 A G M P
        fwdParams configInstance childrenStream).outputs args =
      configInstance.outputs args.state := rfl

/-- C6: the default `outputs` of the configuration schema ignores its state
argument and returns the empty mapping: its field list is empty and every
key reads as absent. -/
theorem configurationCommon_outputs_default_empty
    {D Vd St O StD Dt : Type} (state : St) (k : String) :
    (@configurationCommon D Vd St O StD Dt).base.outputs.value state = (⟨[]⟩ : Obj O) ∧
    Obj.get ((@configurationCommon D Vd St O StD Dt).base.outputs.value state) k = none :=
  ⟨rfl, rfl⟩

/-- C7: the default `orderOperator` of the configuration schema returns `0`
for any two inputs. -/
theorem configurationCommon_orderOperator_default_zero
    {D Vd St O StD Dt : Type} (a b : Dt) :
    (@configurationCommon D Vd St O StD Dt).options.orderOperator.value a b = 0 := rfl

/-- C8: constructing a `StateCommon` copies every field of `params` onto the
instance: every key reads the same value as on `params`; in particular an
instance built from the single binding `selected$ ↦ S` reads `S` back under
`selected$`. -/
theorem stateCommon_assigns_params {α : Type} (params : Obj α) (k : String) (S : α) :
    (StateCommon.ofParams params).get k = params.get k ∧
    (StateCommon.ofParams ⟨[("selected$", S)]⟩).get "selected$" = some S :=
  ⟨rfl, rfl⟩

/-- C9: `inputsCommon` declares exactly one input channel, named `input$`,
and its contract is the accept-anything contract `ofUnknown`, which accepts
every data value. -/
theorem inputsCommon_single_channel_accepts_anything {D : Type} (d : D) :
    inputsCommon.fields.map Prod.fst = ["input$"] ∧
    (inputsCommon.get "input$").map InputDecl.contract = some Contract.ofUnknown ∧
    Contract.accepts Contract.ofUnknown d = true :=
  ⟨rfl, rfl, rfl⟩

/-- C3: when the environment's `viewsFactory` list splits as
`pre ++ f0 :: post` with every factory of `pre` rejecting the data and `f0`
accepting it (i.e. `f0` is the first factory in list order whose
`isCompatible` accepts the data), the default `vdomMap` returns exactly
`f0.view data`. -/
theorem defaultVdomMap_first_compatible {D Vd : Type} (module : ModuleInstance D Vd)
    (data : D) (pre : List (ViewFactory D Vd)) (f0 : ViewFactory D Vd)
    (post : List (ViewFactory D Vd))
    (hsplit : module.environment.viewsFactory = pre ++ f0 :: post)
    (hpre : ∀ g ∈ pre, g.isCompatible data = false)
    (hf0 : f0.isCompatible data = true) :
    defaultVdomMap data module = some (f0.view data) := by
  unfold defaultVdomMap
  rw [hsplit, find?_eq_first_match (fun factory => factory.isCompatible data) pre f0 post hpre hf0]

/-- A factory accepting data with first component `2` (used as a
non-matching entry for the sample data `(1, "x")`). -/
def sampleFactoryTwo : ViewFactory (Nat × String) String :=
  ⟨fun d => d.1 == 2, fun _ => "other view"⟩

/-- A factory accepting data with first component `1`, producing a view from
the data's second component. -/
def sampleFactoryOne : ViewFactory (Nat × String) String :=
  ⟨fun d => d.1 == 1, fun d => d.2 ++ " view"⟩

/-- A module-instance stub whose environment's view-factory list holds a
non-matching factory followed by one matching the data `(1, "x")`. -/
def sampleModule : ModuleInstance (Nat × String) String :=
  ⟨⟨[sampleFactoryTwo, sampleFactoryOne]⟩⟩

theorem defaultVdomMap_first_compatible_witness :
    sampleModule.environment.viewsFactory = [sampleFactoryTwo] ++ sampleFactoryOne :: [] ∧
    (∀ g ∈ [sampleFactoryTwo], g.isCompatible ((1 : Nat), "x") = false) ∧
    sampleFactoryOne.isCompatible ((1 : Nat), "x") = true ∧
    defaultVdomMap ((1 : Nat), "x") sampleModule = some (sampleFactoryOne.view ((1 : Nat), "x")) :=
  ⟨rfl, by decide, by decide,
    defaultVdomMap_first_compatible sampleModule ((1 : Nat), "x")
      [sampleFactoryTwo] sampleFactoryOne [] rfl (by decide) (by decide)⟩

/-- C4: when no factory of the environment's `viewsFactory` list accepts the
data, the default `vdomMap` fails: `find` yields `undefined` and the call
`factory.view(data)` throws, modelled as the result `none`; the package has
no catch around it, so the failure value is returned to the caller
untranslated. -/
theorem defaultVdomMap_no_compatible_fails {D Vd : Type} (module : ModuleInstance D Vd)
    (data : D)
    (h : ∀ f ∈ module.environment.viewsFactory, f.isCompatible data = false) :
    defaultVdomMap data module = none := by
  unfold defaultVdomMap
  have hfind : module.environment.viewsFactory.find?
      (fun factory => factory.isCompatible data) = none :=
    List.find?_eq_none.mpr (fun f hf => by simp [h f hf])
  rw [hfind]

/-- A module-instance stub whose single view-factory rejects the sample
data `(1, "x")`. -/
def sampleModuleNoMatch : ModuleInstance (Nat × String) String :=
  ⟨⟨[sampleFactoryTwo]⟩⟩

theorem defaultVdomMap_no_compatible_fails_witness :
    (∀ f ∈ sampleModuleNoMatch.environment.viewsFactory,
      f.isCompatible ((1 : Nat), "x") = false) ∧
    defaultVdomMap ((1 : Nat), "x") sampleModuleNoMatch = none :=
  ⟨by decide,
    defaultVdomMap_no_compatible_fails sampleModuleNoMatch ((1 : Nat), "x") (by decide)⟩

/-- Reading a key from the object built by the `html` function of
`moduleCommon`: the trailing `children` binding wins for `children`, every
other key reads as on `containerAttributes`. -/
theorem moduleCommon_html_get
    {D Vd SSt O StD Dt I F St O2 A G M P : Type}
    (fwdParams : P) (configInstance : ConfigurationInstance F St O2 A G)
    (childrenStream : M → Option F → A) (m : M) (k : String) :
    Obj.get ((@moduleCommon D Vd SSt O StD Dt I F St O2 A G M P
        fwdParams configInstance childrenStream).html m) k =
      if k = "children" then some (childrenStream m (configInstance.getVdomFn "vDomMap"))
      else configInstance.containerAttributes.get k :=
  Obj.get_append_single configInstance.containerAttributes.fields "children" k
    (childrenStream m (configInstance.getVdomFn "vDomMap"))

/-- C1 (code bug): `moduleCommon` passes `configInstance.vDomMap`
(capital D) as the projector's second argument.  A configuration instance
resolved from the schema holds the mapping function under the key `vdomMap`
and has no `vDomMap` property, so the access yields `undefined` (`none`):
the projector receives `none` instead of the resolved `vdomMap` function,
and the `children` value is the projector applied to `none`. -/
theorem moduleCommon_projector_second_arg_undefined
    {D Vd SSt O StD Dt I F St O2 A G M P : Type}
    (fwdParams : P) (configInstance : ConfigurationInstance F St O2 A G)
    (childrenStream : M → Option F → A) (m : M) :
    configInstance.getVdomFn "vDomMap" = none ∧
    configInstance.getVdomFn "vdomMap" = some configInstance.vdomMap ∧
    configInstance.getVdomFn "vDomMap" ≠ some configInstance.vdomMap ∧
    Obj.get ((@moduleCommon D Vd SSt O StD Dt I F St O2 A G M P
        fwdParams configInstance childrenStream).html m) "children" =
      some (childrenStream m none) := by
  have h1 : configInstance.getVdomFn "vDomMap" = none := by
    unfold ConfigurationInstance.getVdomFn
    rw [if_neg (by decide)]
  refine ⟨h1, rfl, by rw [h1]; simp, ?_⟩
  rw [moduleCommon_html_get fwdParams configInstance childrenStream m "children", if_pos rfl, h1]

/-- C2: the object returned by the `html` function of `moduleCommon`
contains every field of `configInstance.containerAttributes` (here: the
value bound to any key `k` of `containerAttributes`, provided
`containerAttributes` binds no `children` key itself — the colliding case is
settled separately) together with a `children` field equal to the
projector's output. -/
theorem moduleCommon_html_merges_containerAttributes
    {D Vd SSt O StD Dt I F St O2 A G M P : Type}
    (fwdParams : P) (configInstance : ConfigurationInstance F St O2 A G)
    (childrenStream : M → Option F → A) (m : M) (k : String) (v : A)
    (hnc : configInstance.containerAttributes.get "children" = none)
    (hk : configInstance.containerAttributes.get k = some v) :
    Obj.get ((@moduleCommon D Vd SSt O StD Dt I F St O2 A G M P
        fwdParams configInstance childrenStream).html m) k = some v ∧
    Obj.get ((@moduleCommon D Vd SSt O StD Dt I F St O2 A G M P
        fwdParams configInstance childrenStream).html m) "children" =
      some (childrenStream m (configInstance.getVdomFn "vDomMap")) := by
  constructor
  · rw [moduleCommon_html_get fwdParams configInstance childrenStream m k]
    by_cases hkc : k = "children"
    · subst hkc
      rw [hnc] at hk
      simp at hk
    · rw [if_neg hkc]
      exact hk
  · rw [moduleCommon_html_get fwdParams configInstance childrenStream m "children", if_pos rfl]

/-- A configuration-instance stub: `containerAttributes` binds `class` only,
no `children` key. -/
def sampleConfig : ConfigurationInstance Nat Nat Nat Nat Nat :=
  ⟨5, fun _ => ⟨[]⟩, 0, ⟨[("class", 7)]⟩, ⟨0⟩⟩

theorem moduleCommon_html_merges_containerAttributes_witness :
    Obj.get sampleConfig.containerAttributes "children" = none ∧
    Obj.get sampleConfig.containerAttributes "class" = some 7 ∧
    (Obj.get ((@moduleCommon Nat Nat Nat Nat Nat Nat Nat Nat Nat Nat Nat Nat Nat Nat
        (0 : Nat) sampleConfig (fun _ _ => 9)).html 0) "class" = some 7 ∧
     Obj.get ((@moduleCommon Nat Nat Nat Nat Nat Nat Nat Nat Nat Nat Nat Nat Nat Nat
        (0 : Nat) sampleConfig (fun _ _ => 9)).html 0) "children" = some 9) :=
  ⟨rfl, rfl,
    moduleCommon_html_merges_containerAttributes (0 : Nat) sampleConfig
      (fun _ _ => 9) 0 "class" 7 rfl rfl⟩

/-- C10: in the object returned by the `html` function of `moduleCommon`,
the `children` field is always the projector's output — even when
`containerAttributes` itself binds a `children` key, which the trailing
assignment overrides — while every other key reads exactly as on
`containerAttributes`. -/
theorem moduleCommon_html_children_from_projector
    {D Vd SSt O StD Dt I F St O2 A G M P : Type}
    (fwdParams : P) (configInstance : ConfigurationInstance F St O2 A G)
    (childrenStream : M → Option F → A) (m : M) (k : String)
    (hk : k ≠ "children") :
    Obj.get ((@moduleCommon D Vd SSt O StD Dt I F St O2 A G M P
        fwdParams configInstance childrenStream).html m) "children" =
      some (childrenStream m (configInstance.getVdomFn "vDomMap")) ∧
    Obj.get ((@moduleCommon D Vd SSt O StD Dt I F St O2 A G M P
        fwdParams configInstance childrenStream).html m) k =
      configInstance.containerAttributes.get k := by
  constructor
  · rw [moduleCommon_html_get fwdParams configInstance childrenStream m "children", if_pos rfl]
  · rw [moduleCommon_html_get fwdParams configInstance childrenStream m k, if_neg hk]

/-- A configuration-instance stub whose `containerAttributes` itself binds a
`children` key (value `3`), to exercise the override. -/
def sampleConfigWithChildren : ConfigurationInstance Nat Nat Nat Nat Nat :=
  ⟨5, fun _ => ⟨[]⟩, 0, ⟨[("class", 7), ("children", 3)]⟩, ⟨0⟩⟩

theorem moduleCommon_html_children_from_projector_witness :
    ("class" : String) ≠ "children" ∧
    Obj.get sampleConfigWithChildren.containerAttributes "children" = some 3 ∧
    (Obj.get ((@moduleCommon Nat Nat Nat Nat Nat Nat Nat Nat Nat Nat Nat Nat Nat Nat
        (0 : Nat) sampleConfigWithChildren (fun _ _ => 9)).html 0) "children" = some 9 ∧
     Obj.get ((@moduleCommon Nat Nat Nat Nat Nat Nat Nat Nat Nat Nat Nat Nat Nat Nat
        (0 : Nat) sampleConfigWithChildren (fun _ _ => 9)).html 0) "class" =
       Obj.get sampleConfigWithChildren.containerAttributes "class") :=
  ⟨by decide, rfl,
    moduleCommon_html_children_from_projector (0 : Nat) sampleConfigWithChildren
      (fun _ _ => 9) 0 "class" (by decide)⟩

end VsfFluxView
